import Mathlib

/-!
Shallow embedding of `src/data_collection/synthetic_data_generator.py`
(class `MicroMobilityDataGenerator`).

Modelling conventions:
* Timestamps are absolute hour indices (`ℤ`): `date_range s e` is the list of
  hourly instants from `s` to `e` inclusive (mirroring
  `pd.date_range(start, end, freq='H')` on midnight-aligned inputs, one entry
  per hour, both endpoints included).  The hour of day of an instant `t` is
  `t.emod 24` and its calendar date is `t.ediv 24`; month, day-of-month and
  weekday come from a `Calendar` parameter abstracting the Gregorian calendar
  arithmetic done by the `pandas` timestamp library.
* Python's process-global random streams are modelled by oracles: `u` is the
  stream of `random.random()` / `random.uniform` draws consumed in call order
  (threaded by an explicit cursor), `pois` gives the numpy Poisson sample for
  the i-th draw at a given mean (an arbitrary integer, so that the clamping in
  the code is what guarantees non-negativity), and `cn` the integer draws
  backing `random.choice` / `random.randint`.
* Python floats are modelled as `ℚ`; all constants in the source are exact
  decimals.
* A `dict` lookup that can raise `KeyError` is modelled as an `Option`.
-/

namespace MicroMobility

/-- One archetype entry of `self.base_patterns`. -/
structure Pattern where
  peak_hours : List ℤ
  base_demand : ℚ
  deriving DecidableEq

/-- Table `self.base_patterns`: the fixed archetype → profile table (source lines 19-25). -/
def base_patterns : List (String × Pattern) :=
  [("business_district", ⟨[8, 9, 17, 18], 25⟩),
   ("residential", ⟨[7, 8, 18, 19], 15⟩),
   ("tourist", ⟨[10, 11, 14, 15], 20⟩),
   ("transport_hub", ⟨[6, 7, 8, 17, 18, 19], 30⟩),
   ("educational", ⟨[8, 9, 16, 17], 18⟩)]

/-- Dict lookup `self.base_patterns[area_type]`; `none` models a `KeyError`. -/
def lookupPattern (area_type : String) : Option Pattern :=
  (base_patterns.find? (fun p => p.1 == area_type)).map Prod.snd

/-- Embedding of `_calculate_base_demand(hour, day_of_week, area_type)` (source lines 127-149).
In Python 3 the comprehension variable shadows the outer `hour`, so the two
comprehensions on line 135 are the lists of peak hours shifted by `+1` and `-1`. -/
def calculate_base_demand (hour : ℤ) (day_of_week : ℕ) (area_type : String) : Option ℚ :=
  match lookupPattern area_type with
  | none => none
  | some pattern =>
    let base := pattern.base_demand
    let multiplier : ℚ :=
      if hour ∈ pattern.peak_hours then 1.5
      else if hour ∈ pattern.peak_hours.map (fun p => p + 1) ∨
              hour ∈ pattern.peak_hours.map (fun p => p - 1) then 1.2
      else if 6 ≤ hour ∧ hour ≤ 22 then 1.0
      else 0.3
    let multiplier2 : ℚ :=
      if 5 ≤ day_of_week then
        if area_type ∈ ["business_district", "educational"] then multiplier * 0.6
        else if area_type = "tourist" then multiplier * 1.3
        else multiplier
      else multiplier
    some (base * multiplier2)

/-- Embedding of `_get_weather_factor(timestamp)` (source lines 151-180).  Consumes one
uniform draw (the monsoon rain check) only in months 7-9; returns the factor
together with the advanced cursor into the uniform stream. -/
def get_weather_factor (month : ℕ) (u : ℕ → ℚ) (k : ℕ) : ℚ × ℕ :=
  let temp_factor : ℚ := if month ∈ [5, 6, 7] then 0.7
    else if month ∈ [12, 1, 2] then 0.8
    else 1.0
  let rain : ℚ × ℕ :=
    if month ∈ [7, 8, 9] then
      (if u k < 0.3 then (0.4 : ℚ) else 1.0, k + 1)
    else (1.0, k)
  let aqi_factor : ℚ := if month ∈ [10, 11, 12, 1] then 0.9 else 1.0
  (temp_factor * rain.1 * aqi_factor, rain.2)

/-- Embedding of `_get_seasonal_factor(timestamp)` (source lines 182-194); deterministic. -/
def get_seasonal_factor (month : ℕ) : ℚ :=
  if month ∈ [10, 11, 3, 4] then 1.2
  else if month ∈ [5, 6] then 0.8
  else if month ∈ [7, 8] then 0.9
  else 1.0

/-- Embedding of `_get_event_factor(timestamp)` (source lines 196-202).  One draw decides
the 5% event branch; on that branch `random.uniform(1.2, 1.8)` consumes a
second draw (`1.2 + 0.6·u`). -/
def get_event_factor (u : ℕ → ℚ) (k : ℕ) : ℚ × ℕ :=
  if u k < 0.05 then (1.2 + 0.6 * u (k + 1), k + 2)
  else (1.0, k + 1)

/-- The fixed holiday list of `_is_holiday` (source lines 207-212). -/
def holidays : List (ℕ × ℕ) := [(1, 26), (8, 15), (10, 2), (12, 25)]

/-- Embedding of `_is_holiday(timestamp)` (source lines 204-214). -/
def is_holiday (month day : ℕ) : Bool := (month, day) ∈ holidays

/-- Embedding of `_get_weather_condition(temp, precipitation)` (source lines 257-266). -/
def get_weather_condition (temp precipitation : ℚ) : String :=
  if precipitation > 5 then "rainy"
  else if temp > 35 then "hot"
  else if temp < 15 then "cold"
  else "pleasant"

/-- One landmark anchor of `major_areas` (source lines 33-44). -/
structure Area where
  name : String
  lat : ℚ
  lon : ℚ
  type : String
  deriving DecidableEq

/-- The fixed Delhi landmark catalogue `major_areas` (source lines 33-44). -/
def major_areas : List Area :=
  [⟨"Connaught Place", 28.6315, 77.2167, "business_district"⟩,
   ⟨"India Gate", 28.6129, 77.2295, "tourist"⟩,
   ⟨"Red Fort", 28.6562, 77.2410, "tourist"⟩,
   ⟨"Karol Bagh", 28.6519, 77.1909, "business_district"⟩,
   ⟨"Lajpat Nagar", 28.5677, 77.2353, "residential"⟩,
   ⟨"Dwarka", 28.5921, 77.0460, "residential"⟩,
   ⟨"Gurgaon Border", 28.4595, 77.0266, "transport_hub"⟩,
   ⟨"Delhi University", 28.6857, 77.2085, "educational"⟩,
   ⟨"JNU", 28.5383, 77.1641, "educational"⟩,
   ⟨"Chandni Chowk", 28.6506, 77.2334, "business_district"⟩]

/-- One element of `self.station_locations` (source lines 54-61). -/
structure Station where
  station_id : ℕ
  name : String
  latitude : ℚ
  longitude : ℚ
  area_type : String
  base_area : String
  deriving DecidableEq, Inhabited

/-- Embedding of `_generate_station_locations` (source lines 27-63).  `choice i` is the
index drawn by `random.choice(major_areas)` for station `i` (reduced modulo
the catalogue size so that the pick is always an element of the list, as
`random.choice` guarantees); `jlat i` / `jlon i` are the two
`random.uniform(-0.02, 0.02)` jitter draws. -/
def generate_station_locations (num_stations : ℕ) (choice : ℕ → ℕ)
    (jlat jlon : ℕ → ℚ) : List Station :=
  (List.range num_stations).map fun i =>
    let base_area := major_areas.get ⟨choice i % major_areas.length, Nat.mod_lt _ (by decide)⟩
    { station_id := i
      name := "Station_" ++ toString i ++ "_" ++ base_area.name.replace " " "_"
      latitude := base_area.lat + jlat i
      longitude := base_area.lon + jlon i
      area_type := base_area.type
      base_area := base_area.name }

/-- Abstract Gregorian calendar arithmetic of the `pandas` timestamp type:
month, day of month and `weekday()` of an hour instant. -/
structure Calendar where
  monthOf : ℤ → ℕ
  dayOf : ℤ → ℕ
  weekdayOf : ℤ → ℕ

/-- The random sources consumed by `generate_trip_data`: `u` is the Python
`random` stream, `pois i m` the numpy Poisson draw number `i` at mean `m`
(an arbitrary integer: the distribution's support is *not* assumed, so the
clamp in the code is load-bearing). -/
structure Oracles where
  u : ℕ → ℚ
  pois : ℕ → ℚ → ℤ

/-- One row appended to `trips` (source lines 104-120). -/
structure TripRow where
  timestamp : ℤ
  station_id : ℕ
  station_name : String
  latitude : ℚ
  longitude : ℚ
  area_type : String
  trip_count : ℤ
  hour : ℤ
  day_of_week : ℕ
  month : ℕ
  is_weekend : Bool
  is_holiday : Bool
  weather_factor : ℚ
  seasonal_factor : ℚ
  event_factor : ℚ
  deriving DecidableEq, Inhabited

/-- Embedding of `pd.date_range(start, end, freq='H')` on midnight-aligned hour instants:
all hourly instants from `s` to `e`, both inclusive; empty when `e < s`. -/
def date_range (s e : ℤ) : List ℤ :=
  (List.range (e - s + 1).toNat).map (fun k : ℕ => s + (k : ℤ))

/-- The body of the inner `for station_info in self.station_locations` loop
(source lines 91-120) for one station: base demand lookup (a `KeyError` is
`none`), combined mean, Poisson draw number `pidx`, clamp at 0, row build. -/
def stationRow (cal : Calendar) (o : Oracles) (t : ℤ) (wf sf ef : ℚ)
    (pidx : ℕ) (st : Station) : Option TripRow :=
  match calculate_base_demand (t.emod 24) (cal.weekdayOf t) st.area_type with
  | none => none
  | some base_demand =>
    let final_demand := base_demand * wf * sf * ef
    some { timestamp := t
           station_id := st.station_id
           station_name := st.name
           latitude := st.latitude
           longitude := st.longitude
           area_type := st.area_type
           trip_count := max 0 (o.pois pidx final_demand)
           hour := t.emod 24
           day_of_week := cal.weekdayOf t
           month := cal.monthOf t
           is_weekend := decide (5 ≤ cal.weekdayOf t)
           is_holiday := is_holiday (cal.monthOf t) (cal.dayOf t)
           weather_factor := wf
           seasonal_factor := sf
           event_factor := ef }

/-- The inner station loop at one timestamp, threading the Poisson draw
counter; the first `KeyError` aborts (as the Python exception would). -/
def rowsAt (cal : Calendar) (o : Oracles) (t : ℤ) (wf sf ef : ℚ) :
    ℕ → List Station → Option (List TripRow)
  | _, [] => some []
  | pidx, st :: rest =>
    match stationRow cal o t wf sf ef pidx st, rowsAt cal o t wf sf ef (pidx + 1) rest with
    | some r, some rs => some (r :: rs)
    | _, _ => none

/-- The outer `for timestamp in date_range` loop of `generate_trip_data`
(source lines 75-122): per timestamp the weather factor (consuming uniform
draws), the seasonal factor and the event factor (consuming more uniform
draws) are computed once, then every station's row is emitted with those
shared factor values. -/
def genLoop (cal : Calendar) (o : Oracles) (stations : List Station) :
    List ℤ → ℕ → ℕ → Option (List TripRow)
  | [], _, _ => some []
  | t :: ts, uk, pk =>
    let month := cal.monthOf t
    let w := get_weather_factor month o.u uk
    let ef := get_event_factor o.u w.2
    match rowsAt cal o t w.1 (get_seasonal_factor month) ef.1 pk stations,
          genLoop cal o stations ts ef.2 (pk + stations.length) with
    | some rs, some rest => some (rs ++ rest)
    | _, _ => none

/-- Embedding of `generate_trip_data` (source lines 65-125), for a given station registry
and date range: the full trip table, or `none` on an (unreachable for
registry stations) profile `KeyError`. -/
def generate_trip_data (cal : Calendar) (o : Oracles) (stations : List Station)
    (s e : ℤ) : Option (List TripRow) :=
  genLoop cal o stations (date_range s e) 0 0

/-- One row of the events table (source lines 280-286). -/
structure EventRow where
  date : ℤ
  event_type : String
  event_name : String
  expected_attendance : ℤ
  location : String
  deriving DecidableEq

/-- List `event_types` (source line 278). -/
def event_types : List String := ["concert", "festival", "sports", "conference", "exhibition"]

/-- List `event_types` with Python `.title()` applied, for the `event_name` field. -/
def event_types_title : List String := ["Concert", "Festival", "Sports", "Conference", "Exhibition"]

/-- The `for date in unique_dates` loop of `generate_events_data` (source
lines 275-286): one uniform draw per date decides the 10% emission; on
emission four integer draws pick the type, the (independent) name type, the
attendance in `[1000, 50000]` and the location. -/
def eventLoop (u : ℕ → ℚ) (cn : ℕ → ℕ) (locations : List String) :
    List ℤ → ℕ → ℕ → List EventRow
  | [], _, _ => []
  | d :: ds, uk, ck =>
    if u uk < 0.1 then
      { date := d
        event_type := event_types.getD (cn ck % event_types.length) ""
        event_name := "Delhi " ++ event_types_title.getD (cn (ck + 1) % event_types_title.length) "" ++ " Event"
        expected_attendance := 1000 + (cn (ck + 2) % 49001 : ℕ)
        location := locations.getD (cn (ck + 3) % locations.length) "" }
        :: eventLoop u cn locations ds (uk + 1) (ck + 4)
    else eventLoop u cn locations ds (uk + 1) ck

/-- Embedding of `generate_events_data(trip_data)` (source lines 268-288):
`trip_data['timestamp'].dt.date.unique()` is the deduplicated list of the
trip rows' calendar dates (`t.ediv 24`), and the location is drawn from
`[loc['base_area'] for loc in self.station_locations]`. -/
def generate_events_data (trips : List TripRow) (stations : List Station)
    (u : ℕ → ℚ) (cn : ℕ → ℕ) : List EventRow :=
  eventLoop u cn (stations.map Station.base_area)
    ((trips.map (fun r => r.timestamp.ediv 24)).dedup) 0 0

/-! ### Specification-side reformulation of the base-demand rule (§4.2)

`spec_multiplier`, `weekend_adj` and `base_demand_spec` restate the spec's
words (peak 1.5, adjacent-to-peak 1.2, daytime 1.0, night 0.3, then a weekend
adjustment applied to the result).  They are compared against
`calculate_base_demand`, which is translated from the code. -/

/-- Spec wording: 1.5 at a peak hour; else 1.2 one hour before or after some
peak hour; else 1.0 for `6 ≤ hour ≤ 22`; else 0.3. -/
def spec_multiplier (hour : ℤ) (p : Pattern) : ℚ :=
  if hour ∈ p.peak_hours then 1.5
  else if ∃ q ∈ p.peak_hours, hour = q + 1 ∨ hour = q - 1 then 1.2
  else if 6 ≤ hour ∧ hour ≤ 22 then 1.0
  else 0.3

/-- Spec wording: iff the day is a weekend (`day_of_week ≥ 5`), multiply by
0.6 for business/educational archetypes, 1.3 for tourist, 1 otherwise. -/
def weekend_adj (area_type : String) (day_of_week : ℕ) : ℚ :=
  if 5 ≤ day_of_week then
    if area_type = "business_district" ∨ area_type = "educational" then 0.6
    else if area_type = "tourist" then 1.3
    else 1.0
  else 1.0

/-- Spec-side base demand: profile base times multiplier times weekend factor. -/
def base_demand_spec (hour : ℤ) (day_of_week : ℕ) (area_type : String) (p : Pattern) : ℚ :=
  p.base_demand * spec_multiplier hour p * weekend_adj area_type day_of_week

/-! ### Helper lemmas -/

theorem lookupPattern_business : lookupPattern "business_district" = some ⟨[8, 9, 17, 18], 25⟩ := rfl

theorem lookupPattern_residential : lookupPattern "residential" = some ⟨[7, 8, 18, 19], 15⟩ := rfl

theorem lookupPattern_tourist : lookupPattern "tourist" = some ⟨[10, 11, 14, 15], 20⟩ := rfl

theorem lookupPattern_transport : lookupPattern "transport_hub" = some ⟨[6, 7, 8, 17, 18, 19], 30⟩ := rfl

theorem lookupPattern_educational : lookupPattern "educational" = some ⟨[8, 9, 16, 17], 18⟩ := rfl

/-- Any profile returned by a successful lookup is one of the five table rows. -/
theorem lookupPattern_mem {a : String} {p : Pattern} (hp : lookupPattern a = some p) :
    p ∈ base_patterns.map Prod.snd := by
  unfold lookupPattern at hp
  rcases Option.map_eq_some'.mp hp with ⟨q, hq, rfl⟩
  exact List.mem_map_of_mem _ (List.mem_of_find?_eq_some hq)

/-- Every profile in the table has a positive base demand. -/
theorem lookupPattern_base_demand_pos {a : String} {p : Pattern}
    (hp : lookupPattern a = some p) : 0 < p.base_demand := by
  have hmem := lookupPattern_mem hp
  simp only [base_patterns, List.map_cons, List.map_nil, List.mem_cons,
    List.not_mem_nil, or_false] at hmem
  rcases hmem with rfl | rfl | rfl | rfl | rfl <;> norm_num

/-- The weekend adjustment is always positive. -/
theorem weekend_adj_pos (a : String) (dow : ℕ) : 0 < weekend_adj a dow := by
  unfold weekend_adj
  split_ifs <;> norm_num

/-- Theorem: `calculate_base_demand` (translated from the code) computes exactly the
spec-side value whenever the profile lookup succeeds. -/
theorem calculate_base_demand_eq (hour : ℤ) (dow : ℕ) (a : String) (p : Pattern)
    (hp : lookupPattern a = some p) :
    calculate_base_demand hour dow a = some (base_demand_spec hour dow a p) := by
  have hadj : (hour ∈ p.peak_hours.map (fun q => q + 1) ∨
      hour ∈ p.peak_hours.map (fun q => q - 1)) ↔
      ∃ q ∈ p.peak_hours, hour = q + 1 ∨ hour = q - 1 := by
    simp only [List.mem_map]
    constructor
    · rintro (⟨q, hq, rfl⟩ | ⟨q, hq, rfl⟩)
      · exact ⟨q, hq, Or.inl rfl⟩
      · exact ⟨q, hq, Or.inr rfl⟩
    · rintro ⟨q, hq, rfl | rfl⟩
      · exact Or.inl ⟨q, hq, rfl⟩
      · exact Or.inr ⟨q, hq, rfl⟩
  unfold calculate_base_demand base_demand_spec spec_multiplier weekend_adj
  rw [hp]
  simp only [hadj, List.mem_cons, List.not_mem_nil, or_false]
  split_ifs <;> (congr 1; ring)

/-- A successful profile lookup makes `calculate_base_demand` succeed. -/
theorem calculate_base_demand_isSome {a : String} (hour : ℤ) (dow : ℕ)
    (h : (lookupPattern a).isSome = true) :
    (calculate_base_demand hour dow a).isSome = true := by
  rcases Option.isSome_iff_exists.mp h with ⟨p, hp⟩
  rw [calculate_base_demand_eq hour dow a p hp]
  rfl

/-- Field facts about a single emitted row. -/
theorem stationRow_fields {cal : Calendar} {o : Oracles} {t : ℤ} {wf sf ef : ℚ}
    {pidx : ℕ} {st : Station} {r : TripRow}
    (h : stationRow cal o t wf sf ef pidx st = some r) :
    r.timestamp = t ∧ r.station_id = st.station_id ∧ r.weather_factor = wf ∧
      r.seasonal_factor = sf ∧ r.event_factor = ef ∧ 0 ≤ r.trip_count := by
  unfold stationRow at h
  rcases hb : calculate_base_demand (t.emod 24) (cal.weekdayOf t) st.area_type with _ | bd
  · rw [hb] at h; cases h
  · rw [hb] at h
    cases h
    refine ⟨rfl, rfl, rfl, rfl, rfl, le_max_left 0 _⟩

/-- Lemma: `stationRow` succeeds whenever the station's profile lookup succeeds. -/
theorem stationRow_isSome {cal : Calendar} {o : Oracles} (t : ℤ) (wf sf ef : ℚ)
    (pidx : ℕ) {st : Station} (h : (lookupPattern st.area_type).isSome = true) :
    (stationRow cal o t wf sf ef pidx st).isSome = true := by
  unfold stationRow
  rcases Option.isSome_iff_exists.mp
    (@calculate_base_demand_isSome st.area_type (t.emod 24) (cal.weekdayOf t) h) with ⟨bd, hb⟩
  rw [hb]
  rfl

/-- Every row of the inner station loop carries the loop's timestamp and the
shared factor values, and a clamped (hence non-negative) trip count. -/
theorem rowsAt_fields {cal : Calendar} {o : Oracles} {t : ℤ} {wf sf ef : ℚ} :
    ∀ {stations : List Station} {pidx : ℕ} {rs : List TripRow},
      rowsAt cal o t wf sf ef pidx stations = some rs → ∀ r ∈ rs,
        r.timestamp = t ∧ r.weather_factor = wf ∧ r.seasonal_factor = sf ∧
          r.event_factor = ef ∧ 0 ≤ r.trip_count
  | [], _, rs, h, r, hr => by
    unfold rowsAt at h
    cases h
    cases hr
  | st :: rest, pidx, rs, h, r, hr => by
    unfold rowsAt at h
    rcases h1 : stationRow cal o t wf sf ef pidx st with _ | r0 <;> rw [h1] at h
    · cases h
    · rcases h2 : rowsAt cal o t wf sf ef (pidx + 1) rest with _ | rs0 <;> rw [h2] at h
      · cases h
      · cases h
        rcases List.mem_cons.mp hr with rfl | hr0
        · obtain ⟨ht, _, hw, hs, he, hc⟩ := stationRow_fields h1
          exact ⟨ht, hw, hs, he, hc⟩
        · exact rowsAt_fields h2 r hr0

/-- The (timestamp, station_id) keys of one inner-loop pass are exactly the
stations' ids paired with the loop timestamp, in registry order. -/
theorem rowsAt_map_key {cal : Calendar} {o : Oracles} {t : ℤ} {wf sf ef : ℚ} :
    ∀ {stations : List Station} {pidx : ℕ} {rs : List TripRow},
      rowsAt cal o t wf sf ef pidx stations = some rs →
        rs.map (fun r => (r.timestamp, r.station_id)) =
          stations.map (fun st => (t, st.station_id))
  | [], _, rs, h => by
    unfold rowsAt at h
    cases h
    rfl
  | st :: rest, pidx, rs, h => by
    unfold rowsAt at h
    rcases h1 : stationRow cal o t wf sf ef pidx st with _ | r0 <;> rw [h1] at h
    · cases h
    · rcases h2 : rowsAt cal o t wf sf ef (pidx + 1) rest with _ | rs0 <;> rw [h2] at h
      · cases h
      · cases h
        obtain ⟨ht, hid, _, _, _, _⟩ := stationRow_fields h1
        simp only [List.map_cons, ht, hid, rowsAt_map_key h2]

/-- The inner loop succeeds when every station's archetype is in the table. -/
theorem rowsAt_isSome {cal : Calendar} {o : Oracles} (t : ℤ) (wf sf ef : ℚ) :
    ∀ (stations : List Station) (pidx : ℕ),
      (∀ st ∈ stations, (lookupPattern st.area_type).isSome = true) →
      (rowsAt cal o t wf sf ef pidx stations).isSome = true
  | [], _, _ => rfl
  | st :: rest, pidx, hok => by
    unfold rowsAt
    rcases Option.isSome_iff_exists.mp
      (@stationRow_isSome cal o t wf sf ef pidx st
        (hok st (List.mem_cons_self st rest))) with ⟨r0, h1⟩
    rcases Option.isSome_iff_exists.mp
      (rowsAt_isSome t wf sf ef rest (pidx + 1)
        (fun s hs => hok s (List.mem_cons_of_mem st hs))) with ⟨rs0, h2⟩
    rw [h1, h2]
    rfl

/-- Destructor for the two-scrutinee match in `genLoop`. -/
theorem optMerge_eq_some {a b : Option (List TripRow)} {c : List TripRow}
    (h : (match a, b with
          | some rs, some rest => some (rs ++ rest)
          | _, _ => none) = some c) :
    ∃ rs rest, a = some rs ∧ b = some rest ∧ c = rs ++ rest := by
  rcases a with _ | rs <;> rcases b with _ | rest <;> simp_all

/-- Unfolding equation for the cons case of the outer timestamp loop. -/
theorem genLoop_cons (cal : Calendar) (o : Oracles) (stations : List Station)
    (t : ℤ) (ts : List ℤ) (uk pk : ℕ) :
    genLoop cal o stations (t :: ts) uk pk =
      (match rowsAt cal o t (get_weather_factor (cal.monthOf t) o.u uk).1
            (get_seasonal_factor (cal.monthOf t))
            (get_event_factor o.u (get_weather_factor (cal.monthOf t) o.u uk).2).1 pk stations,
          genLoop cal o stations ts
            (get_event_factor o.u (get_weather_factor (cal.monthOf t) o.u uk).2).2
            (pk + stations.length) with
        | some rs, some rest => some (rs ++ rest)
        | _, _ => none) := rfl

/-- Every trip row produced by the outer loop has a non-negative count. -/
theorem genLoop_nonneg {cal : Calendar} {o : Oracles} {stations : List Station} :
    ∀ {ts : List ℤ} {uk pk : ℕ} {rows : List TripRow},
      genLoop cal o stations ts uk pk = some rows → ∀ r ∈ rows, 0 ≤ r.trip_count
  | [], _, _, rows, h, r, hr => by
    cases h
    cases hr
  | t :: ts, uk, pk, rows, h, r, hr => by
    rw [genLoop_cons] at h
    obtain ⟨rs, rest, h1, h2, rfl⟩ := optMerge_eq_some h
    rcases List.mem_append.mp hr with hr1 | hr2
    · exact (rowsAt_fields h1 r hr1).2.2.2.2
    · exact genLoop_nonneg h2 r hr2

/-- Every produced row's timestamp is one of the loop's timestamps. -/
theorem genLoop_time_mem {cal : Calendar} {o : Oracles} {stations : List Station} :
    ∀ {ts : List ℤ} {uk pk : ℕ} {rows : List TripRow},
      genLoop cal o stations ts uk pk = some rows → ∀ r ∈ rows, r.timestamp ∈ ts
  | [], _, _, rows, h, r, hr => by
    cases h
    cases hr
  | t :: ts, uk, pk, rows, h, r, hr => by
    rw [genLoop_cons] at h
    obtain ⟨rs, rest, h1, h2, rfl⟩ := optMerge_eq_some h
    rcases List.mem_append.mp hr with hr1 | hr2
    · rw [(rowsAt_fields h1 r hr1).1]
      exact List.mem_cons_self t ts
    · exact List.mem_cons_of_mem t (genLoop_time_mem h2 r hr2)

/-- The outer loop succeeds whenever every station's archetype is known. -/
theorem genLoop_isSome {cal : Calendar} {o : Oracles} {stations : List Station}
    (hok : ∀ st ∈ stations, (lookupPattern st.area_type).isSome = true) :
    ∀ (ts : List ℤ) (uk pk : ℕ), (genLoop cal o stations ts uk pk).isSome = true
  | [], _, _ => rfl
  | t :: ts, uk, pk => by
    rw [genLoop_cons]
    rcases Option.isSome_iff_exists.mp
      (@rowsAt_isSome cal o t _ _ _ stations pk hok) with ⟨rs, h1⟩
    rcases Option.isSome_iff_exists.mp
      (genLoop_isSome hok ts _ (pk + stations.length)) with ⟨rest, h2⟩
    rw [h1, h2]
    rfl

/-- The (timestamp, station_id) keys of the whole trip table: the timestamps
in loop order, each paired with every station id in registry order. -/
theorem genLoop_map_key {cal : Calendar} {o : Oracles} {stations : List Station} :
    ∀ {ts : List ℤ} {uk pk : ℕ} {rows : List TripRow},
      genLoop cal o stations ts uk pk = some rows →
        rows.map (fun r => (r.timestamp, r.station_id)) =
          ts.flatMap (fun t => stations.map (fun st => (t, st.station_id)))
  | [], _, _, rows, h => by
    cases h
    rfl
  | t :: ts, uk, pk, rows, h => by
    rw [genLoop_cons] at h
    obtain ⟨rs, rest, h1, h2, rfl⟩ := optMerge_eq_some h
    rw [List.map_append, rowsAt_map_key h1, genLoop_map_key h2, List.flatMap_cons]

/-- Rows produced at the same timestamp carry identical weather, seasonal and
event factor values (the factors are computed once per outer iteration). -/
theorem genLoop_factors_shared {cal : Calendar} {o : Oracles} {stations : List Station} :
    ∀ {ts : List ℤ} {uk pk : ℕ} {rows : List TripRow},
      ts.Nodup → genLoop cal o stations ts uk pk = some rows →
      ∀ r1 ∈ rows, ∀ r2 ∈ rows, r1.timestamp = r2.timestamp →
        r1.weather_factor = r2.weather_factor ∧
          r1.seasonal_factor = r2.seasonal_factor ∧
          r1.event_factor = r2.event_factor
  | [], _, _, rows, _, h, r1, hr1, r2, hr2, _ => by
    cases h
    cases hr1
  | t :: ts, uk, pk, rows, hnd, h, r1, hr1, r2, hr2, hts => by
    rw [genLoop_cons] at h
    obtain ⟨rs, rest, h1, h2, rfl⟩ := optMerge_eq_some h
    rcases List.mem_append.mp hr1 with m1 | m1 <;> rcases List.mem_append.mp hr2 with m2 | m2
    · obtain ⟨-, hw1, hs1, he1, -⟩ := rowsAt_fields h1 r1 m1
      obtain ⟨-, hw2, hs2, he2, -⟩ := rowsAt_fields h1 r2 m2
      exact ⟨hw1.trans hw2.symm, hs1.trans hs2.symm, he1.trans he2.symm⟩
    · exact absurd ((rowsAt_fields h1 r1 m1).1 ▸ hts ▸ genLoop_time_mem h2 r2 m2)
        ((List.nodup_cons.mp hnd).1)
    · exact absurd ((rowsAt_fields h1 r2 m2).1 ▸ hts.symm ▸ genLoop_time_mem h2 r1 m1)
        ((List.nodup_cons.mp hnd).1)
    · exact genLoop_factors_shared (List.nodup_cons.mp hnd).2 h2 r1 m1 r2 m2 hts

theorem date_range_length (s e : ℤ) : (date_range s e).length = (e - s + 1).toNat := by
  rw [date_range, List.length_map, List.length_range]

theorem date_range_nodup (s e : ℤ) : (date_range s e).Nodup := by
  rw [date_range]
  exact List.Nodup.map (fun a b hab => by omega) (List.nodup_range _)

theorem date_range_eq_nil {s e : ℤ} (h : e < s) : date_range s e = [] := by
  rw [date_range, Int.toNat_of_nonpos (by omega)]
  rfl

/-- The dates of emitted event rows form a sublist of the iterated date list
(each date emits at most one row, in order). -/
theorem eventLoop_dates_sublist (u : ℕ → ℚ) (cn : ℕ → ℕ) (locations : List String) :
    ∀ (ds : List ℤ) (uk ck : ℕ),
      ((eventLoop u cn locations ds uk ck).map EventRow.date).Sublist ds
  | [], _, _ => List.nil_sublist []
  | d :: ds, uk, ck => by
    rw [eventLoop]
    split_ifs with h
    · rw [List.map_cons]
      exact List.Sublist.cons₂ d (eventLoop_dates_sublist u cn locations ds (uk + 1) (ck + 4))
    · exact List.Sublist.cons d (eventLoop_dates_sublist u cn locations ds (uk + 1) ck)

/-! ### Concrete fixtures used by witnesses and counterexamples -/

/-- A fixed calendar oracle: every instant is in March, on day 1, weekday 0. -/
def calA : Calendar := ⟨fun _ => 3, fun _ => 1, fun _ => 0⟩

/-- Fixed random oracles: every uniform draw is 1 (so no rain, no special
event) and every Poisson draw returns −3 (exercising the clamp). -/
def oA : Oracles := ⟨fun _ => 1, fun _ _ => -3⟩

/-- A handcrafted two-station list, both tourist stations. -/
def stationsA : List Station :=
  [⟨0, "a", 0, 0, "tourist", "x"⟩, ⟨1, "b", 0, 0, "tourist", "x"⟩]

/-- Three stations produced by the Station Registry, anchored at catalogue
entries 0, 1, 2. -/
def stationsB : List Station :=
  generate_station_locations 3 (fun i => i) (fun _ => 0) (fun _ => 0)

/-- First trip row generated for `stationsA` at instant 0 under `calA`/`oA`:
March weekday gives weather factor 1, seasonal 1.2, event 1; hour 0 is a
night hour for the tourist profile (base 20 × 0.3 = 6 expected), and the
Poisson draw −3 is clamped to 0. -/
def rowA : TripRow := ⟨0, 0, "a", 0, 0, "tourist", 0, 0, 0, 3, false, false, 1, 1.2, 1⟩

/-- Second trip row generated for `stationsA` at instant 0 under `calA`/`oA`. -/
def rowB : TripRow := ⟨0, 1, "b", 0, 0, "tourist", 0, 0, 0, 3, false, false, 1, 1.2, 1⟩

/-- Concrete evaluation of the generator on `stationsA` over the single
instant 0. -/
theorem genA_eval : generate_trip_data calA oA stationsA 0 0 = some [rowA, rowB] := by
  norm_num [generate_trip_data, date_range, genLoop, rowsAt, stationRow,
    calculate_base_demand, get_weather_factor, get_seasonal_factor,
    get_event_factor, stationsA, calA, oA, is_holiday, holidays,
    lookupPattern_tourist, rowA, rowB]

/-! ### Claim theorems -/

/-- C1: every trip row produced by `generate_trip_data` — any date range,
stations, calendar and random draws — has a non-negative integer
`trip_count`: the Poisson sample is clamped at 0 before the row is emitted,
so `trip_count ≥ 0` holds regardless of how small the combined factor
product makes the expected value (and even for an adversarial draw). -/
theorem trip_count_nonneg (cal : Calendar) (o : Oracles) (stations : List Station)
    (s e : ℤ) (rows : List TripRow)
    (hg : generate_trip_data cal o stations s e = some rows)
    (r : TripRow) (hr : r ∈ rows) : 0 ≤ r.trip_count :=
  genLoop_nonneg hg r hr

/-- Witness for C1: a concrete run whose Poisson oracle returns −3 still
emits trip count 0. -/
theorem trip_count_nonneg_witness : 0 ≤ rowA.trip_count :=
  trip_count_nonneg calA oA stationsA 0 0 [rowA, rowB] genA_eval rowA
    (List.mem_cons_self rowA [rowB])

/-- C4: within one invocation of `generate_trip_data`, the weather, seasonal
and event factors are evaluated once per timestamp and shared across all
stations: any two rows with the same timestamp carry identical
`weather_factor`, `seasonal_factor` and `event_factor` values. -/
theorem factors_shared_per_timestamp (cal : Calendar) (o : Oracles)
    (stations : List Station) (s e : ℤ) (rows : List TripRow)
    (hg : generate_trip_data cal o stations s e = some rows)
    (r1 : TripRow) (h1 : r1 ∈ rows) (r2 : TripRow) (h2 : r2 ∈ rows)
    (ht : r1.timestamp = r2.timestamp) :
    r1.weather_factor = r2.weather_factor ∧
      r1.seasonal_factor = r2.seasonal_factor ∧
      r1.event_factor = r2.event_factor :=
  genLoop_factors_shared (date_range_nodup s e) hg r1 h1 r2 h2 ht

/-- Witness for C4: the two rows generated for the two stations of
`stationsA` at instant 0 share all three factor values. -/
theorem factors_shared_per_timestamp_witness :
    rowA.weather_factor = rowB.weather_factor ∧
      rowA.seasonal_factor = rowB.seasonal_factor ∧
      rowA.event_factor = rowB.event_factor :=
  factors_shared_per_timestamp calA oA stationsA 0 0 [rowA, rowB] genA_eval
    rowA (List.mem_cons_self rowA [rowB])
    rowB (List.mem_cons_of_mem rowA (List.mem_cons_self rowB []))
    rfl

/-- C5: for every inverted date range (`end < start`) and every station
list, the generator returns an empty trip sequence and no error. -/
theorem empty_when_inverted (cal : Calendar) (o : Oracles) (stations : List Station)
    (s e : ℤ) (h : e < s) :
    generate_trip_data cal o stations s e = some [] := by
  rw [generate_trip_data, date_range_eq_nil h]
  rfl

/-- Witness for C5 at the concrete inverted range [0, −1]. -/
theorem empty_when_inverted_witness :
    generate_trip_data calA oA stationsA 0 (-1) = some [] :=
  empty_when_inverted calA oA stationsA 0 (-1) (by norm_num)

/-- C10: the weather factor always lies in (0, 1]: each component
(temperature ∈ {0.7, 0.8, 1.0}, rain ∈ {0.4, 1.0}, air quality ∈ {0.9, 1.0})
is positive and at most 1, hence so is their product — the weather factor
can only suppress demand, never increase it. -/
theorem weather_factor_in_unit_interval (month : ℕ) (u : ℕ → ℚ) (k : ℕ) :
    0 < (get_weather_factor month u k).1 ∧ (get_weather_factor month u k).1 ≤ 1 := by
  simp only [get_weather_factor]
  split_ifs <;> constructor <;> norm_num

/-- C2 counterexample: with 3 registry stations, a 1-day range given as
`start = end = d` (midnight-aligned) yields 1 × 3 = 3 rows, and the range
`[d, d + 1 day]` yields 25 × 3 = 75 rows (`pd.date_range` includes both
endpoints) — under neither reading does the generator produce 72 rows. -/
theorem one_day_range_not_72_rows :
    (generate_trip_data calA oA stationsB 0 0).map List.length = some 3 ∧
    (generate_trip_data calA oA stationsB 0 24).map List.length = some 75 ∧
    (3 : ℕ) ≠ 72 ∧ (75 : ℕ) ≠ 72 := by
  have hok : ∀ st ∈ stationsB, (lookupPattern st.area_type).isSome = true := by
    decide
  have hids : (stationsB.map Station.station_id).Nodup := by
    decide
  obtain ⟨rows0, hg0⟩ := Option.isSome_iff_exists.mp
    (genLoop_isSome hok (date_range 0 0) 0 0)
  obtain ⟨rows1, hg1⟩ := Option.isSome_iff_exists.mp
    (genLoop_isSome hok (date_range 0 24) 0 0)
  have h0 := congrArg List.length (genLoop_map_key hg0)
  have h1 := congrArg List.length (genLoop_map_key hg1)
  rw [List.length_map, List.length_flatMap] at h0 h1
  simp only [Function.comp_def, List.length_map, List.map_const', List.sum_replicate,
    smul_eq_mul, date_range_length] at h0 h1
  refine ⟨?_, ?_, by norm_num, by norm_num⟩
  · rw [generate_trip_data, hg0, Option.map_some', h0]
    decide
  · rw [generate_trip_data, hg1, Option.map_some', h1]
    decide

/-- C2 (amended): generating trips over the hourly range `[s, e]` (both
endpoints inclusive, as `pd.date_range` produces) for stations with distinct
ids and known archetypes yields exactly `(e − s + 1) × num_stations` rows,
each with a distinct (timestamp, station_id) pair, covering every
combination of range timestamp and station.  A 1-day range given as
`start = end = d` therefore yields `1 × 3 = 3` rows for 3 stations, and the
range `[d, d + 1 day]` yields `25 × 3 = 75`, not `24 × 3 = 72`. -/
theorem generate_rows_complete (cal : Calendar) (o : Oracles) (stations : List Station)
    (s e : ℤ)
    (hok : ∀ st ∈ stations, (lookupPattern st.area_type).isSome = true)
    (hids : (stations.map Station.station_id).Nodup) :
    ∃ rows, generate_trip_data cal o stations s e = some rows ∧
      rows.length = (e - s + 1).toNat * stations.length ∧
      (rows.map (fun r => (r.timestamp, r.station_id))).Nodup ∧
      ∀ t ∈ date_range s e, ∀ st ∈ stations, ∃ r ∈ rows,
        r.timestamp = t ∧ r.station_id = st.station_id := by
  obtain ⟨rows, hg⟩ := Option.isSome_iff_exists.mp
    (genLoop_isSome hok (date_range s e) 0 0)
  have hkey := genLoop_map_key hg
  refine ⟨rows, hg, ?_, ?_, ?_⟩
  · have hlen := congrArg List.length hkey
    rw [List.length_map, List.length_flatMap] at hlen
    simpa only [Function.comp_def, List.length_map, List.map_const', List.sum_replicate,
      smul_eq_mul, date_range_length] using hlen
  · rw [hkey, List.nodup_flatMap]
    constructor
    · intro t ht
      have hcomp : (stations.map fun st => (t, st.station_id)) =
          (stations.map Station.station_id).map (fun i => (t, i)) := by
        rw [List.map_map]
        rfl
      rw [hcomp]
      exact List.Nodup.map (fun a b hab => by simpa using hab) hids
    · refine (date_range_nodup s e).imp ?_
      intro a b hab x hx1 hx2
      obtain ⟨st1, -, rfl⟩ := List.mem_map.mp hx1
      obtain ⟨st2, -, heq⟩ := List.mem_map.mp hx2
      exact hab (congrArg Prod.fst heq).symm
  · intro t ht st hst
    have hx : (t, st.station_id) ∈ rows.map (fun r => (r.timestamp, r.station_id)) := by
      rw [hkey]
      exact List.mem_flatMap.mpr ⟨t, ht, List.mem_map_of_mem _ hst⟩
    obtain ⟨r, hr, hrk⟩ := List.mem_map.mp hx
    exact ⟨r, hr, congrArg Prod.fst hrk, congrArg Prod.snd hrk⟩

/-- Witness for C2 (amended): two stations over the two-instant range [0, 1]
yield 4 rows. -/
theorem generate_rows_complete_witness :
    (generate_trip_data calA oA stationsA 0 1).map List.length = some 4 := by
  obtain ⟨rows, hg, hlen, -, -⟩ :=
    generate_rows_complete calA oA stationsA 0 1 (by decide) (by decide)
  rw [hg, Option.map_some', hlen]
  decide

/-- C3: for every hour, day of week and archetype with a profile entry,
`calculate_base_demand` returns the profile's base demand times the
spec-order multiplier (1.5 peak, else 1.2 adjacent-to-peak, else 1.0 for
hours 6–22, else 0.3), further multiplied — exactly when `day_of_week ≥ 5` —
by 0.6 for business/educational, 1.3 for tourist, 1 otherwise. -/
theorem base_demand_follows_spec (hour : ℤ) (day_of_week : ℕ) (area_type : String)
    (p : Pattern) (hhour : 0 ≤ hour ∧ hour ≤ 23) (hdow : day_of_week ≤ 6)
    (hp : lookupPattern area_type = some p) :
    calculate_base_demand hour day_of_week area_type =
      some (p.base_demand * spec_multiplier hour p * weekend_adj area_type day_of_week) :=
  calculate_base_demand_eq hour day_of_week area_type p hp

/-- Witness for C3: the residential profile on a weekend at peak hour 7. -/
theorem base_demand_follows_spec_witness :
    calculate_base_demand 7 6 "residential" =
      some ((15 : ℚ) * spec_multiplier 7 ⟨[7, 8, 18, 19], 15⟩ * weekend_adj "residential" 6) :=
  base_demand_follows_spec 7 6 "residential" ⟨[7, 8, 18, 19], 15⟩
    (by norm_num) (by norm_num) lookupPattern_residential

/-- C6: for a fixed archetype and day of week, `calculate_base_demand` is
ordered by hour class — peak ≥ adjacent-to-peak ≥ generic daytime ≥ night —
and every night hour gives strictly less than every generic daytime hour,
because the weekend adjustment multiplies all classes by the same positive
constant and the profile's base demand is positive. -/
theorem base_demand_hour_class_ordering (a : String) (p : Pattern) (dow : ℕ)
    (h1 h2 h3 h4 : ℤ) (v1 v2 v3 v4 : ℚ)
    (hp : lookupPattern a = some p)
    (hpk : h1 ∈ p.peak_hours)
    (hadj : (∃ q ∈ p.peak_hours, h2 = q + 1 ∨ h2 = q - 1) ∧ h2 ∉ p.peak_hours)
    (hday : (6 ≤ h3 ∧ h3 ≤ 22) ∧ h3 ∉ p.peak_hours ∧
      ¬∃ q ∈ p.peak_hours, h3 = q + 1 ∨ h3 = q - 1)
    (hnight : ¬(6 ≤ h4 ∧ h4 ≤ 22) ∧ h4 ∉ p.peak_hours ∧
      ¬∃ q ∈ p.peak_hours, h4 = q + 1 ∨ h4 = q - 1)
    (e1 : calculate_base_demand h1 dow a = some v1)
    (e2 : calculate_base_demand h2 dow a = some v2)
    (e3 : calculate_base_demand h3 dow a = some v3)
    (e4 : calculate_base_demand h4 dow a = some v4) :
    v2 ≤ v1 ∧ v3 ≤ v2 ∧ v4 ≤ v3 ∧ v4 < v3 := by
  have hB := lookupPattern_base_demand_pos hp
  have hW := weekend_adj_pos a dow
  rw [calculate_base_demand_eq _ _ _ _ hp] at e1 e2 e3 e4
  have hm1 : spec_multiplier h1 p = 1.5 := by
    rw [spec_multiplier, if_pos hpk]
  have hm2 : spec_multiplier h2 p = 1.2 := by
    rw [spec_multiplier, if_neg hadj.2, if_pos hadj.1]
  have hm3 : spec_multiplier h3 p = 1.0 := by
    rw [spec_multiplier, if_neg hday.2.1, if_neg hday.2.2, if_pos hday.1]
  have hm4 : spec_multiplier h4 p = 0.3 := by
    rw [spec_multiplier, if_neg hnight.2.1, if_neg hnight.2.2, if_neg hnight.1]
  have hv1 := Option.some.inj e1
  have hv2 := Option.some.inj e2
  have hv3 := Option.some.inj e3
  have hv4 := Option.some.inj e4
  rw [base_demand_spec, hm1] at hv1
  rw [base_demand_spec, hm2] at hv2
  rw [base_demand_spec, hm3] at hv3
  rw [base_demand_spec, hm4] at hv4
  subst hv1 hv2 hv3 hv4
  refine ⟨?_, ?_, ?_, ?_⟩ <;> nlinarith [mul_pos hB hW]

/-- Witness for C6: business district on a Monday, with peak hour 8,
adjacent hour 7, daytime hour 12 and night hour 2. -/
theorem base_demand_hour_class_ordering_witness :
    (30 : ℚ) ≤ 37.5 ∧ (25 : ℚ) ≤ 30 ∧ (7.5 : ℚ) ≤ 25 ∧ (7.5 : ℚ) < 25 :=
  base_demand_hour_class_ordering "business_district" ⟨[8, 9, 17, 18], 25⟩ 0
    8 7 12 2 37.5 30 25 7.5 lookupPattern_business
    (by decide) (by decide) (by decide) (by decide)
    (by norm_num [calculate_base_demand, lookupPattern_business])
    (by norm_num [calculate_base_demand, lookupPattern_business])
    (by norm_num [calculate_base_demand, lookupPattern_business])
    (by norm_num [calculate_base_demand, lookupPattern_business])

/-- C7: `weather_condition` is a deterministic pure function of the sampled
(temperature, precipitation) pair, evaluated in priority order —
precipitation > 5 ⇒ rainy; else temperature > 35 ⇒ hot; else
temperature < 15 ⇒ cold; else pleasant — with in particular
(40, 0) ↦ hot, (10, 0) ↦ cold, (25, 10) ↦ rainy and (25, 0) ↦ pleasant. -/
theorem weather_condition_cases (temp precipitation : ℚ) :
    (5 < precipitation → get_weather_condition temp precipitation = "rainy") ∧
    (precipitation ≤ 5 → 35 < temp → get_weather_condition temp precipitation = "hot") ∧
    (precipitation ≤ 5 → temp ≤ 35 → temp < 15 →
      get_weather_condition temp precipitation = "cold") ∧
    (precipitation ≤ 5 → temp ≤ 35 → 15 ≤ temp →
      get_weather_condition temp precipitation = "pleasant") ∧
    get_weather_condition 40 0 = "hot" ∧
    get_weather_condition 10 0 = "cold" ∧
    get_weather_condition 25 10 = "rainy" ∧
    get_weather_condition 25 0 = "pleasant" := by
  refine ⟨?_, ?_, ?_, ?_, ?_, ?_, ?_, ?_⟩
  · intro h
    rw [get_weather_condition, if_pos h]
  · intro h1 h2
    rw [get_weather_condition, if_neg (not_lt.mpr h1), if_pos h2]
  · intro h1 h2 h3
    rw [get_weather_condition, if_neg (not_lt.mpr h1), if_neg (not_lt.mpr h2), if_pos h3]
  · intro h1 h2 h3
    rw [get_weather_condition, if_neg (not_lt.mpr h1), if_neg (not_lt.mpr h2),
      if_neg (not_lt.mpr h3)]
  · norm_num [get_weather_condition]
  · norm_num [get_weather_condition]
  · norm_num [get_weather_condition]
  · norm_num [get_weather_condition]

/-- Witness for C7 at (25, 10): the rain branch fires first. -/
theorem weather_condition_cases_witness : get_weather_condition 25 10 = "rainy" :=
  (weather_condition_cases 25 10).1 (by norm_num)

/-- C8: for every trip table, station list and random draw, the events table
never contains two rows with the same calendar date: the generator iterates
the distinct dates of the trip data once and emits at most one row per
date. -/
theorem events_dates_nodup (trips : List TripRow) (stations : List Station)
    (u : ℕ → ℚ) (cn : ℕ → ℕ) :
    ((generate_events_data trips stations u cn).map EventRow.date).Nodup := by
  rw [generate_events_data]
  exact List.Nodup.sublist
    (eventLoop_dates_sublist u cn (stations.map Station.base_area)
      ((trips.map (fun r => r.timestamp.ediv 24)).dedup) 0 0)
    (List.nodup_dedup _)

/-- C9: every station emitted by the Station Registry carries an `area_type`
from the fixed anchor catalogue, each such value has a profile entry, and
therefore the profile lookup at the start of the base-demand computation
succeeds for every registry station — its missing-key branch is unreachable. -/
theorem registry_area_types_valid (n : ℕ) (choice : ℕ → ℕ) (jlat jlon : ℕ → ℚ)
    (st : Station) (hst : st ∈ generate_station_locations n choice jlat jlon) :
    st.area_type ∈ ["business_district", "residential", "tourist",
      "transport_hub", "educational"] ∧
    (lookupPattern st.area_type).isSome = true ∧
    ∀ (hour : ℤ) (dow : ℕ), (calculate_base_demand hour dow st.area_type).isSome = true := by
  have hfin : ∀ (j : Fin major_areas.length),
      (major_areas.get j).type ∈ ["business_district", "residential", "tourist",
        "transport_hub", "educational"] ∧
      (lookupPattern (major_areas.get j).type).isSome = true := by decide
  rw [generate_station_locations] at hst
  obtain ⟨i, -, rfl⟩ := List.mem_map.mp hst
  exact ⟨(hfin _).1, (hfin _).2,
    fun hour dow => calculate_base_demand_isSome hour dow (hfin _).2⟩

/-- Witness for C9: the first of the three registry stations `stationsB`. -/
theorem registry_area_types_valid_witness :
    (lookupPattern ((stationsB.getD 0 default).area_type)).isSome = true := by
  have hlen : 0 < stationsB.length := by
    rw [stationsB, generate_station_locations, List.length_map, List.length_range]
    norm_num
  have hmem : stationsB.getD 0 default ∈ stationsB := by
    rw [List.getD_eq_getElem stationsB default hlen]
    exact List.getElem_mem hlen
  exact (registry_area_types_valid 3 (fun i => i) (fun _ => 0) (fun _ => 0) _ hmem).2.1

end MicroMobility
